import Mathlib

/-!
Shallow embedding of the KORA itinerary-generation core
(`backend/app/agent/tools.py` together with the distance aggregation in
`backend/app/services/travel_data_api.py`), plus a spec-modelled day-plan
scheduler (the `DayPlanScheduler` of the design document has no
implementation under the repository sources; it is modelled from the
spec's own algorithm descriptions, see the marked definitions below).

Python floats are modelled as exact rationals; Python's `round(x, n)`
(round-half-to-even on the decimal value) is modelled by `rhe` below.
External HTTP services (OpenTripMap geocoding, OpenRouteService
directions, Amadeus flights) are modelled as explicit provider records,
so that every code path of the embedded functions is a pure function of
the provider and the inputs.
-/

/-- Round-half-to-even to an integer, the semantics of Python's `round`
on exact decimal values (banker's rounding). -/
def rhe (q : ℚ) : ℤ :=
  if q - ⌊q⌋ < 1 / 2 then ⌊q⌋
  else if 1 / 2 < q - ⌊q⌋ then ⌊q⌋ + 1
  else if ⌊q⌋ % 2 = 0 then ⌊q⌋ else ⌊q⌋ + 1

/-- Python's `round(x, 2)`. -/
def round2 (q : ℚ) : ℚ := rhe (q * 100) / 100

/-- Python's `round(x, 1)`. -/
def round1 (q : ℚ) : ℚ := rhe (q * 10) / 10

/-- A coordinate pair `(lon, lat)` as produced by `get_city_coordinates`. -/
def Coord : Type := ℚ × ℚ

/-- Outcome of one OpenRouteService directions request for a pair of
consecutive coordinates, as handled by `fetch_distance_between_cities`
(`travel_data_api.py`):
* `ok d t` — HTTP 200 with a `routes`/`features` summary carrying
  `distance` `d` (meters) and `duration` `t` (seconds);
* `noSummary` — HTTP 200 but no usable summary in the body (the code
  logs a warning and adds nothing);
* `distLimitFallback s` — HTTP 400 "distance must not be greater than":
  the code falls back to the haversine straight-line distance `s`
  (a transcendental function of the coordinates, carried here as data),
  adding `s * 1.3` meters and `s * 1.3 / 13.89` seconds;
* `httpError` — any other non-200 response (the code `continue`s,
  adding nothing);
* `requestExn` — the request raises (timeout/connection error), which
  aborts the whole computation via the outer `except` handler. -/
inductive LegOutcome where
  | ok (distance duration : ℚ)
  | noSummary
  | distLimitFallback (straightLine : ℚ)
  | httpError
  | requestExn

/-- The external services consumed by `fetch_distance_between_cities`:
`get_city_coordinates` (OpenTripMap) and the per-leg OpenRouteService
directions call, plus presence of the `OPENROUTESERVICE_API_KEY`. -/
structure GeoProvider where
  coords : String → Option Coord
  leg : Coord → Coord → LegOutcome
  hasApiKey : Bool

/-- The coordinate-resolution loop of `fetch_distance_between_cities`:
resolve every city in order, failing the whole call if any single
city does not resolve. -/
def resolveCoordinates (gp : GeoProvider) : List String → Option (List Coord)
  | [] => some []
  | c :: cs =>
    match gp.coords c, resolveCoordinates gp cs with
    | some x, some xs => some (x :: xs)
    | _, _ => none

/-- Distance/duration (meters, seconds) contributed by one leg, or
`none` when the request raises and aborts the whole call. -/
def legContribution : LegOutcome → Option (ℚ × ℚ)
  | .ok d t => some (d, t)
  | .noSummary => some (0, 0)
  | .distLimitFallback s => some (s * 13 / 10, s * 13 / 10 / (1389 / 100))
  | .httpError => some (0, 0)
  | .requestExn => none

/-- The leg-summation loop of `fetch_distance_between_cities` over
consecutive coordinate pairs. -/
def sumLegs (gp : GeoProvider) : List Coord → Option (ℚ × ℚ)
  | [] => some (0, 0)
  | [_] => some (0, 0)
  | a :: b :: rest =>
    match legContribution (gp.leg a b), sumLegs gp (b :: rest) with
    | some (d, t), some (d', t') => some (d + d', t + t')
    | _, _ => none

/-- Result dictionary of `fetch_distance_between_cities`. -/
structure DistanceResult where
  total_distance_meters : ℚ
  total_duration_seconds : ℚ
  cities : List String

/-- `fetch_distance_between_cities(cities)` from
`backend/app/services/travel_data_api.py`: needs at least two cities,
resolves all coordinates (any failure aborts), requires the API key,
then sums the per-leg contributions. -/
def fetch_distance_between_cities (gp : GeoProvider) (cities : List String) :
    Option DistanceResult :=
  if cities.length < 2 then none
  else
    match resolveCoordinates gp cities with
    | none => none
    | some coordList =>
      if gp.hasApiKey = false then none
      else
        match sumLegs gp coordList with
        | none => none
        | some (d, t) => some ⟨d, t, cities⟩

/-- Return dictionary of `calculate_travel_details`: the two numeric
fields are always present; `error` and `cities` are optional keys. -/
structure TravelDetails where
  total_distance_km : ℚ
  carbon_emissions_kg : ℚ
  error : Option String
  cities : Option (List String)

/-- `calculate_travel_details(cities)` from
`backend/app/agent/tools.py` (the core after argument coercion, taking
the city list directly): kilometers are `meters / 1000`, carbon is
`km * 0.12`, both rounded to 2 decimals in the returned dictionary. -/
def calculate_travel_details (gp : GeoProvider) (cities : List String) :
    TravelDetails :=
  if cities.length < 2 then
    ⟨0, 0, some "Need at least 2 cities to calculate distance", none⟩
  else
    match fetch_distance_between_cities gp cities with
    | none => ⟨0, 0, some "Could not calculate distances between cities", none⟩
    | some r =>
      let total_distance_km := r.total_distance_meters / 1000
      let carbon := total_distance_km * (12 / 100)
      ⟨round2 total_distance_km, round2 carbon, none, some r.cities⟩

/-- One flight offer as consumed by `create_multiple_itineraries`;
`price` is `none` when the `price` field is missing, falsy, or fails
`float()` conversion. -/
structure FlightOffer where
  price : Option ℚ

/-- The external flight services consumed by
`create_multiple_itineraries`: `get_iata_code` (geo_api) and
`search_flights` (flight_api, arguments origin IATA, destination IATA,
date). -/
structure FlightProvider where
  get_iata_code : String → Option String
  search_flights : String → String → String → List FlightOffer

/-- The optional flight context of `create_multiple_itineraries`
(`origin_city`, `travel_date`, `destination_country`); `none` models
any of them missing or empty (falsy in the Python guard). -/
structure FlightCtx where
  origin_city : String
  travel_date : String
  destination_country : String

/-- Python's `str.lower()` (modelled for ASCII strings). -/
def toLowerPy (s : String) : String := ⟨s.data.map Char.toLower⟩

/-- The hardcoded `destination_airports` country-to-IATA map in
`create_multiple_itineraries` (tools.py lines 324-333). -/
def destination_airports (country : String) : Option String :=
  match country with
  | "france" => some "CDG"
  | "spain" => some "MAD"
  | "italy" => some "FCO"
  | "germany" => some "FRA"
  | "united kingdom" => some "LHR"
  | "uk" => some "LHR"
  | "england" => some "LHR"
  | "japan" => some "NRT"
  | "china" => some "PEK"
  | "australia" => some "SYD"
  | "canada" => some "YYZ"
  | "brazil" => some "GRU"
  | "india" => some "DEL"
  | "mexico" => some "MEX"
  | "south korea" => some "ICN"
  | "korea" => some "ICN"
  | "netherlands" => some "AMS"
  | "belgium" => some "BRU"
  | "switzerland" => some "ZUR"
  | "austria" => some "VIE"
  | "sweden" => some "ARN"
  | "norway" => some "OSL"
  | "denmark" => some "CPH"
  | "finland" => some "HEL"
  | "poland" => some "WAW"
  | "czech republic" => some "PRG"
  | "hungary" => some "BUD"
  | "portugal" => some "LIS"
  | "greece" => some "ATH"
  | "turkey" => some "IST"
  | "russia" => some "SVO"
  | _ => none

/-- The price-extraction loop of `create_multiple_itineraries`: keep
each offer whose `price` field parses to a float strictly greater
than zero. -/
def extractFlightCosts (offers : List FlightOffer) : List ℚ :=
  offers.filterMap fun o =>
    match o.price with
    | some v => if 0 < v then some v else none
    | none => none

/-- The flight-cost block of `create_multiple_itineraries`: with a full
flight context, resolve the origin IATA code and look the destination
country (lowercased) up in the hardcoded map; on success, collect the
positive offer prices; any failure leaves the list empty. -/
def flightCostsOf (fp : FlightProvider) : Option FlightCtx → List ℚ
  | none => []
  | some ctx =>
    match fp.get_iata_code ctx.origin_city,
        destination_airports (toLowerPy ctx.destination_country) with
    | some oi, some di => extractFlightCosts (fp.search_flights oi di ctx.travel_date)
    | _, _ => []

/-- All ways to pick one element out of a list, each with the remaining
elements in their original order, in left-to-right order of the picked
position. -/
def picks {α : Type} : List α → List (α × List α)
  | [] => []
  | x :: xs => (x, xs) :: (picks xs).map (fun p => (p.1, x :: p.2))

/-- Fuel-indexed permutation enumeration in the order of Python's
`itertools.permutations`: choose the first element left to right, then
recursively permute the remaining elements (lexicographic in the
positions of the input). -/
def permsAux {α : Type} : ℕ → List α → List (List α)
  | 0, _ => [[]]
  | _ + 1, [] => [[]]
  | n + 1, x :: xs =>
    (picks (x :: xs)).flatMap fun p => (permsAux n p.2).map (p.1 :: ·)

/-- `list(itertools.permutations(cities))` in emission order. -/
def permutationsIT {α : Type} (l : List α) : List (List α) :=
  permsAux l.length l

/-- Permutation selection of `create_multiple_itineraries`
(tools.py lines 359-369): a single city yields the one trivial route;
otherwise the first `min(5, n!)` permutations in generation order. -/
def selectedPermutations (cities : List String) : List (List String) :=
  if cities.length = 1 then [cities]
  else
    let ps := permutationsIT cities
    ps.take (min 5 ps.length)

/-- One itinerary-option dictionary built by
`create_multiple_itineraries`; `costs` models the nested `costs`
dictionary as a key-value list. -/
structure ItineraryOption where
  id : ℕ
  name : String
  cities : List String
  total_distance_km : ℚ
  carbon_emissions_kg : ℚ
  estimated_drive_time_hours : ℚ
  route_description : String
  costs : List (String × ℚ)

/-- The per-option flight cost: `flight_costs[i]` when the index is in
range, else the first element when the list is nonempty, else 0; the
displayed value is rounded to 2 decimals unless falsy. -/
def flightCostDisplayed (fcs : List ℚ) (i : ℕ) : ℚ :=
  let flight_cost := fcs.getD i (fcs.headD 0)
  if flight_cost = 0 then 0 else round2 flight_cost

/-- Travel details used for one candidate route inside
`create_multiple_itineraries`: a single-city route gets literal zeros
with no lookup; otherwise `calculate_travel_details` is invoked. -/
def travelDetailsFor (gp : GeoProvider) (route : List String) : TravelDetails :=
  if route.length = 1 then ⟨0, 0, none, none⟩
  else calculate_travel_details gp route

/-- Construction of the option dictionary for the route at (0-based)
enumeration index `i` (tools.py lines 394-406). -/
def buildOption (fcs : List ℚ) (i : ℕ) (route : List String)
    (td : TravelDetails) : ItineraryOption :=
  { id := i + 1
    name := "Route Option " ++ toString (i + 1)
    cities := route
    total_distance_km := td.total_distance_km
    carbon_emissions_kg := td.carbon_emissions_kg
    estimated_drive_time_hours := round1 (td.total_distance_km / 60)
    route_description := String.intercalate " → " route
    costs := [("flight_cost", flightCostDisplayed fcs i)] }

/-- The `for i, city_route in enumerate(selected_permutations)` loop:
routes whose travel details carry an `error` key are skipped
(`continue`), all others become options; `i` counts all routes,
skipped or not. -/
def buildOptions (gp : GeoProvider) (fcs : List ℚ) (i : ℕ) :
    List (List String) → List ItineraryOption
  | [] => []
  | route :: rest =>
    let td := travelDetailsFor gp route
    if td.error.isSome then buildOptions gp fcs (i + 1) rest
    else buildOption fcs i route td :: buildOptions gp fcs (i + 1) rest

/-- Comparison key of the final `itinerary_options.sort`. -/
def carbonLE (a b : ItineraryOption) : Prop :=
  a.carbon_emissions_kg ≤ b.carbon_emissions_kg

instance : DecidableRel carbonLE := fun a b =>
  inferInstanceAs (Decidable (a.carbon_emissions_kg ≤ b.carbon_emissions_kg))

instance : IsTotal ItineraryOption carbonLE := ⟨fun _ _ => le_total _ _⟩

instance : IsTrans ItineraryOption carbonLE := ⟨fun _ _ _ => le_trans⟩

/-- Python's stable `list.sort(key=lambda x: x['carbon_emissions_kg'])`,
modelled by a stable insertion sort on the same key. -/
def sortItineraries (l : List ItineraryOption) : List ItineraryOption :=
  l.insertionSort carbonLE

/-- Return value of `create_multiple_itineraries`: either the single
error dictionary (empty input) or the list of option dictionaries. -/
inductive CreateResult where
  | error (err message : String)
  | options (l : List ItineraryOption)

/-- `create_multiple_itineraries(cities, origin_city, travel_date,
destination_country, ...)` from `backend/app/agent/tools.py` (the core
after argument coercion): flight costs, permutation selection, travel
details per route with failing routes skipped, and a final stable sort
ascending by carbon emissions. -/
def create_multiple_itineraries (gp : GeoProvider) (fp : FlightProvider)
    (cities : List String) (ctx : Option FlightCtx) : CreateResult :=
  if cities.length < 1 then
    .error "Need at least 1 city to create itineraries"
      "Please provide at least 1 city to create itinerary options"
  else
    .options (sortItineraries
      (buildOptions gp (flightCostsOf fp ctx) 0 (selectedPermutations cities)))

/-- The option list of a `CreateResult` (empty for the error case). -/
def optionsOf : CreateResult → List ItineraryOption
  | .error _ _ => []
  | .options l => l

/-- Modelled from the spec: the diverse-subset selection §4.1 prescribes
for `n! > cap` — "the first (cap−2) permutations in generation order,
plus the fully-reversed order, plus one middle-swap variant"; no such
selection exists in the source (`create_multiple_itineraries` simply
truncates). The swap exchanges the elements at the two positions
straddling the midpoint. -/
def middleSwap (l : List String) : List String :=
  let i := (l.length - 1) / 2
  let j := (l.length + 1) / 2
  (l.set i (l.getD j "")).set j (l.getD i "")

/-- Modelled from the spec: the full §4.1 selection for `n! > cap`. -/
def specDiverseSelection (cap : ℕ) (l : List String) : List (List String) :=
  (permutationsIT l).take (cap - 2) ++ [l.reverse, middleSwap l]

/-- Modelled from the spec: the Balanced strategy slices of §4.5 with a
fixed per-day size — each day but the last takes `per` POIs off the
front, the final day takes everything that remains. -/
def balancedSlices {α : Type} (per : ℕ) : ℕ → List α → List (List α)
  | 0, _ => []
  | 1, rest => [rest]
  | d + 2, rest => rest.take per :: balancedSlices per (d + 1) (rest.drop per)

/-- Modelled from the spec: the Balanced strategy of §4.5
(`per_day = floor(m / d)`, first `d − 1` days get `per_day` POIs each
in input order, the final day receives all remaining POIs). The
`DayPlanScheduler` is absent from the repository sources. -/
def balanced {α : Type} (poi : List α) (d : ℕ) : List (List α) :=
  balancedSlices (poi.length / d) d poi

/-- Modelled from the spec: consecutive chunks of size `c`, one per
day, trailing days empty once the POIs run out (§4.5 Clustered). -/
def chunkSlices {α : Type} (c : ℕ) : ℕ → List α → List (List α)
  | 0, _ => []
  | d + 1, rest => rest.take c :: chunkSlices c d (rest.drop c)

/-- Modelled from the spec: the Clustered strategy of §4.5
(`chunk_size = ceil(m / d)`, one consecutive chunk per day). -/
def clustered {α : Type} (poi : List α) (d : ℕ) : List (List α) :=
  chunkSlices ((poi.length + d - 1) / d) d poi

/-- Modelled from the spec: the Randomized strategy of §4.5 — shuffle a
copy of the POI list, then apply the Balanced algorithm; the shuffle is
an injected function (the spec leaves the random source open). -/
def randomized {α : Type} (shuffle : List α → List α) (poi : List α) (d : ℕ) :
    List (List α) :=
  balanced (shuffle poi) d

/-- Modelled from the spec: day construction for the Priority-weighted
strategy of §4.5 — each remaining day with a priority POI pairs it with
one secondary POI when available; once the priority POIs are exhausted,
the remaining days drain the secondary pool (drained here with the
Balanced distribution, one reading of "remaining days drain the
secondary pool in order"). -/
def pwAux {α : Type} : List α → List α → ℕ → List (List α)
  | _, _, 0 => []
  | [], secs, d + 1 => balancedSlices (secs.length / (d + 1)) (d + 1) secs
  | p :: ps, [], d + 1 => [p] :: pwAux ps [] d
  | p :: ps, s :: ss, d + 1 => [p, s] :: pwAux ps ss d

/-- Modelled from the spec: the Priority-weighted strategy of §4.5 —
the first `min(3, m)` POIs are priority, one per day, day-aligned,
each paired with one secondary POI from the remainder if available. -/
def priorityWeighted {α : Type} (poi : List α) (d : ℕ) : List (List α) :=
  pwAux (poi.take (min 3 poi.length)) (poi.drop (min 3 poi.length)) d

/-- A provider on which every city resolves to the same coordinate and
every directions request succeeds with `d` meters. -/
def gpConst (d : ℚ) : GeoProvider :=
  { coords := fun _ => some (0, 0)
    leg := fun _ _ => .ok d 0
    hasApiKey := true }

/-- A provider with two resolvable cities "A" and "B" whose two leg
directions return slightly different distances that round to the same
carbon value (10010 m from "A", 10000 m from "B"). -/
def gpTie : GeoProvider :=
  { coords := fun c => if c = "A" then some (0, 0)
      else if c = "B" then some (1, 1) else none
    leg := fun p _ => if p.1 = 0 then .ok 10010 0 else .ok 10000 0
    hasApiKey := true }

/-- A provider with two resolvable cities where the leg leaving "A"
succeeds with 5000 m but the leg leaving "B" answers with a non-200
HTTP error (which the code skips, contributing zero meters). -/
def gpLegFail : GeoProvider :=
  { coords := fun c => if c = "A" then some (0, 0)
      else if c = "B" then some (1, 1) else none
    leg := fun p _ => if p.1 = 0 then .ok 5000 0 else .httpError
    hasApiKey := true }

/-- A provider on which city "B" fails coordinate resolution. -/
def gpNoCoords : GeoProvider :=
  { coords := fun c => if c = "A" then some (0, 0) else none
    leg := fun _ _ => .ok 1000 0
    hasApiKey := true }

/-- A flight provider that resolves nothing. -/
def fpEmpty : FlightProvider :=
  { get_iata_code := fun _ => none
    search_flights := fun _ _ _ => [] }

/-- A flight provider returning two resolved offers, 300 then 100
(so the cheapest offer is 100 but it is not the first). -/
def fpTwoOffers : FlightProvider :=
  { get_iata_code := fun _ => some "YYZ"
    search_flights := fun _ _ _ => [⟨some 300⟩, ⟨some 100⟩] }

/-- A complete flight context with destination country "france". -/
def ctxFrance : FlightCtx :=
  { origin_city := "Toronto"
    travel_date := "2025-01-01"
    destination_country := "france" }

theorem picks_length {α : Type} (l : List α) : (picks l).length = l.length := by
  induction l with
  | nil => rfl
  | cons x xs ih => simp [picks, ih]

theorem picks_snd_length {α : Type} :
    ∀ (l : List α) (p : α × List α), p ∈ picks l → p.2.length + 1 = l.length := by
  intro l
  induction l with
  | nil => intro p hp; simp [picks] at hp
  | cons x xs ih =>
    intro p hp
    simp only [picks, List.mem_cons, List.mem_map] at hp
    rcases hp with rfl | ⟨q, hq, rfl⟩
    · simp
    · have := ih q hq
      simp only [List.length_cons]
      omega

theorem picks_cons_perm {α : Type} :
    ∀ (l : List α) (p : α × List α), p ∈ picks l → (p.1 :: p.2).Perm l := by
  intro l
  induction l with
  | nil => intro p hp; simp [picks] at hp
  | cons x xs ih =>
    intro p hp
    simp only [picks, List.mem_cons, List.mem_map] at hp
    rcases hp with rfl | ⟨q, hq, rfl⟩
    · exact List.Perm.refl _
    · exact (List.Perm.swap x q.1 q.2).trans ((ih q hq).cons x)

theorem permsAux_mem_perm {α : Type} :
    ∀ (n : ℕ) (l : List α), l.length = n → ∀ p ∈ permsAux n l, p.Perm l := by
  intro n
  induction n with
  | zero =>
    intro l hl p hp
    have hnil : l = [] := List.length_eq_zero.mp hl
    subst hnil
    simp only [permsAux, List.mem_singleton] at hp
    simp [hp]
  | succ n ih =>
    intro l hl p hp
    match l with
    | [] => simp at hl
    | x :: xs =>
      simp only [permsAux, List.mem_flatMap, List.mem_map] at hp
      obtain ⟨q, hq, r, hr, rfl⟩ := hp
      have hlen : q.2.length = n := by
        have := picks_snd_length (x :: xs) q hq
        simp only [List.length_cons] at this hl
        omega
      exact ((ih q.2 hlen r hr).cons q.1).trans (picks_cons_perm (x :: xs) q hq)

theorem permsAux_length {α : Type} :
    ∀ (n : ℕ) (l : List α), l.length = n → (permsAux n l).length = n.factorial := by
  intro n
  induction n with
  | zero => intro l _; simp [permsAux, Nat.factorial]
  | succ n ih =>
    intro l hl
    match l with
    | [] => simp at hl
    | x :: xs =>
      rw [permsAux, List.length_flatMap]
      have hmap : (picks (x :: xs)).map
            (List.length ∘ fun p => (permsAux n p.2).map (p.1 :: ·)) =
          (picks (x :: xs)).map (fun _ => n.factorial) := by
        apply List.map_congr_left
        intro q hq
        simp only [Function.comp_apply, List.length_map]
        apply ih
        have := picks_snd_length (x :: xs) q hq
        simp only [List.length_cons] at this hl
        omega
      have hxs : xs.length = n := by
        simp only [List.length_cons] at hl
        omega
      rw [hmap, List.map_const', List.sum_replicate, picks_length, smul_eq_mul,
        List.length_cons, hxs, Nat.factorial_succ]

theorem permutationsIT_mem_perm {α : Type} {l p : List α}
    (hp : p ∈ permutationsIT l) : p.Perm l :=
  permsAux_mem_perm l.length l rfl p hp

theorem permutationsIT_length {α : Type} (l : List α) :
    (permutationsIT l).length = l.length.factorial :=
  permsAux_length l.length l rfl

theorem selectedPermutations_mem_perm {cities r : List String}
    (hr : r ∈ selectedPermutations cities) :
    r.Perm cities := by
  unfold selectedPermutations at hr
  split at hr
  · simp only [List.mem_singleton] at hr
    simp [hr]
  · exact permutationsIT_mem_perm (List.mem_of_mem_take hr)

theorem selectedPermutations_length {cities : List String}
    (h2 : 2 ≤ cities.length) :
    (selectedPermutations cities).length = min 5 cities.length.factorial := by
  unfold selectedPermutations
  rw [if_neg (by omega)]
  rw [List.length_take, permutationsIT_length]
  omega

theorem buildOptions_mem {gp : GeoProvider} {fcs : List ℚ} :
    ∀ (sel : List (List String)) (i : ℕ) (o : ItineraryOption),
      o ∈ buildOptions gp fcs i sel →
      ∃ k route, route ∈ sel ∧ (travelDetailsFor gp route).error = none ∧
        o = buildOption fcs k route (travelDetailsFor gp route) := by
  intro sel
  induction sel with
  | nil => intro i o ho; simp [buildOptions] at ho
  | cons route rest ih =>
    intro i o ho
    simp only [buildOptions] at ho
    by_cases h : (travelDetailsFor gp route).error.isSome
    · rw [if_pos h] at ho
      obtain ⟨k, r, hr, he, rfl⟩ := ih (i + 1) o ho
      exact ⟨k, r, List.mem_cons_of_mem _ hr, he, rfl⟩
    · rw [if_neg h] at ho
      rcases List.mem_cons.mp ho with rfl | ho'
      · exact ⟨i, route, List.mem_cons_self _ _,
          Option.not_isSome_iff_eq_none.mp h, rfl⟩
      · obtain ⟨k, r, hr, he, rfl⟩ := ih (i + 1) o ho'
        exact ⟨k, r, List.mem_cons_of_mem _ hr, he, rfl⟩

theorem buildOptions_map_cities {gp : GeoProvider} {fcs : List ℚ} :
    ∀ (sel : List (List String)) (i : ℕ),
      (∀ r ∈ sel, (travelDetailsFor gp r).error = none) →
      (buildOptions gp fcs i sel).map ItineraryOption.cities = sel := by
  intro sel
  induction sel with
  | nil => intro i _; rfl
  | cons route rest ih =>
    intro i h
    have h0 := h route (List.mem_cons_self _ _)
    simp only [buildOptions]
    rw [if_neg (by simp [h0])]
    simp only [List.map_cons]
    rw [ih (i + 1) (fun r hr => h r (List.mem_cons_of_mem _ hr))]
    rfl

theorem resolveCoordinates_none {gp : GeoProvider} :
    ∀ (cities : List String) (c : String), c ∈ cities → gp.coords c = none →
      resolveCoordinates gp cities = none := by
  intro cities
  induction cities with
  | nil => intro c hc _; simp at hc
  | cons x xs ih =>
    intro c hc hnone
    rcases List.mem_cons.mp hc with rfl | hc'
    · simp [resolveCoordinates, hnone]
    · have := ih c hc' hnone
      simp only [resolveCoordinates, this]
      cases gp.coords x <;> rfl

theorem rhe_nonneg {q : ℚ} (h : 0 ≤ q) : 0 ≤ rhe q := by
  have hf : (0 : ℤ) ≤ ⌊q⌋ := Int.floor_nonneg.mpr h
  unfold rhe
  split
  · exact hf
  · split
    · omega
    · split
      · exact hf
      · omega

theorem round2_nonneg {q : ℚ} (h : 0 ≤ q) : 0 ≤ round2 q := by
  unfold round2
  apply div_nonneg _ (by norm_num)
  exact_mod_cast rhe_nonneg (by positivity)

theorem extractFlightCosts_pos (offers : List FlightOffer) :
    ∀ x ∈ extractFlightCosts offers, 0 < x := by
  intro x hx
  simp only [extractFlightCosts, List.mem_filterMap] at hx
  obtain ⟨o, _, ho⟩ := hx
  cases hp : o.price with
  | none => rw [hp] at ho; simp at ho
  | some v =>
    rw [hp] at ho
    dsimp only at ho
    split at ho
    · cases ho
      assumption
    · cases ho

theorem flightCostsOf_pos (fp : FlightProvider) (ctx : Option FlightCtx) :
    ∀ x ∈ flightCostsOf fp ctx, 0 < x := by
  intro x hx
  cases ctx with
  | none => simp [flightCostsOf] at hx
  | some c =>
    simp only [flightCostsOf] at hx
    cases h1 : fp.get_iata_code c.origin_city with
    | none => rw [h1] at hx; simp at hx
    | some oi =>
      cases h2 : destination_airports (toLowerPy c.destination_country) with
      | none => rw [h1, h2] at hx; simp at hx
      | some di =>
        rw [h1, h2] at hx
        exact extractFlightCosts_pos _ x hx

theorem getD_headD_nonneg (fcs : List ℚ) (i : ℕ) (h : ∀ x ∈ fcs, 0 < x) :
    0 ≤ fcs.getD i (fcs.headD 0) := by
  by_cases hi : i < fcs.length
  · rw [List.getD_eq_getElem fcs _ hi]
    exact le_of_lt (h _ (List.getElem_mem hi))
  · rw [List.getD_eq_default fcs _ (by omega)]
    cases fcs with
    | nil => simp
    | cons y ys => exact le_of_lt (h y (List.mem_cons_self _ _))

theorem flightCostDisplayed_nonneg (fcs : List ℚ) (i : ℕ)
    (h : ∀ x ∈ fcs, 0 < x) : 0 ≤ flightCostDisplayed fcs i := by
  simp only [flightCostDisplayed]
  split
  · exact le_refl 0
  · exact round2_nonneg (getD_headD_nonneg fcs i h)

theorem sortItineraries_perm (l : List ItineraryOption) :
    (sortItineraries l).Perm l :=
  List.perm_insertionSort carbonLE l

theorem sortItineraries_sorted (l : List ItineraryOption) :
    (sortItineraries l).Sorted carbonLE :=
  List.sorted_insertionSort carbonLE l

theorem resolveCoordinates_some (gp : GeoProvider)
    (hc : ∀ c, (gp.coords c).isSome) :
    ∀ cities, (resolveCoordinates gp cities).isSome := by
  intro cities
  induction cities with
  | nil => simp [resolveCoordinates]
  | cons x xs ih =>
    simp only [resolveCoordinates]
    rcases Option.isSome_iff_exists.mp (hc x) with ⟨v, hv⟩
    rcases Option.isSome_iff_exists.mp ih with ⟨vs, hvs⟩
    rw [hv, hvs]
    rfl

theorem sumLegs_some (gp : GeoProvider)
    (hok : ∀ a b, (legContribution (gp.leg a b)).isSome) :
    ∀ cs, (sumLegs gp cs).isSome := by
  intro cs
  induction cs with
  | nil => simp [sumLegs]
  | cons a rest ih =>
    cases rest with
    | nil => simp [sumLegs]
    | cons b rest' =>
      simp only [sumLegs]
      rcases Option.isSome_iff_exists.mp (hok a b) with ⟨⟨d, t⟩, h1⟩
      rcases Option.isSome_iff_exists.mp ih with ⟨⟨D, T⟩, h2⟩
      rw [h1, h2]
      rfl

theorem fetch_some (gp : GeoProvider)
    (hc : ∀ c, (gp.coords c).isSome)
    (hok : ∀ a b, (legContribution (gp.leg a b)).isSome)
    (hkey : gp.hasApiKey = true)
    (cities : List String) (h2 : 2 ≤ cities.length) :
    (fetch_distance_between_cities gp cities).isSome := by
  unfold fetch_distance_between_cities
  rw [if_neg (by omega)]
  rcases Option.isSome_iff_exists.mp (resolveCoordinates_some gp hc cities)
    with ⟨cs, hcs⟩
  rw [hcs]
  dsimp only
  rw [if_neg (by simp [hkey])]
  rcases Option.isSome_iff_exists.mp (sumLegs_some gp hok cs) with ⟨⟨d, t⟩, hsum⟩
  rw [hsum]
  rfl

theorem travelDetails_error_none (gp : GeoProvider)
    (hc : ∀ c, (gp.coords c).isSome)
    (hok : ∀ a b, (legContribution (gp.leg a b)).isSome)
    (hkey : gp.hasApiKey = true) :
    ∀ route : List String, 1 ≤ route.length →
      (travelDetailsFor gp route).error = none := by
  intro route hlen
  unfold travelDetailsFor
  by_cases h1 : route.length = 1
  · rw [if_pos h1]
  · rw [if_neg h1]
    unfold calculate_travel_details
    rw [if_neg (by omega)]
    rcases Option.isSome_iff_exists.mp
      (fetch_some gp hc hok hkey route (by omega)) with ⟨r, hr⟩
    rw [hr]

theorem balancedSlices_flatten {α : Type} (per : ℕ) :
    ∀ (d : ℕ) (rest : List α), 1 ≤ d →
      (balancedSlices per d rest).flatten = rest := by
  intro d
  induction d with
  | zero => intro rest hd; omega
  | succ d ih =>
    intro rest _
    cases d with
    | zero => simp [balancedSlices]
    | succ d' =>
      simp only [balancedSlices, List.flatten_cons]
      rw [ih (rest.drop per) (by omega)]
      exact List.take_append_drop per rest

theorem balanced_flatten {α : Type} (poi : List α) (d : ℕ) (hd : 1 ≤ d) :
    (balanced poi d).flatten = poi :=
  balancedSlices_flatten (poi.length / d) d poi hd

theorem chunkSlices_flatten {α : Type} (c : ℕ) :
    ∀ (d : ℕ) (rest : List α), rest.length ≤ c * d →
      (chunkSlices c d rest).flatten = rest := by
  intro d
  induction d with
  | zero =>
    intro rest h
    simp only [Nat.mul_zero, Nat.le_zero] at h
    rw [List.eq_nil_of_length_eq_zero h]
    rfl
  | succ d ih =>
    intro rest h
    simp only [chunkSlices, List.flatten_cons]
    rw [ih (rest.drop c) (by
      rw [List.length_drop]
      rw [Nat.mul_succ] at h
      omega)]
    exact List.take_append_drop c rest

theorem le_ceilDiv_mul (m d : ℕ) (hd : 1 ≤ d) : m ≤ (m + d - 1) / d * d := by
  have h1 := Nat.div_add_mod (m + d - 1) d
  have h2 : (m + d - 1) % d < d := Nat.mod_lt _ (by omega)
  rw [Nat.mul_comm]
  obtain ⟨X, hX⟩ : ∃ X, d * ((m + d - 1) / d) = X := ⟨_, rfl⟩
  rw [hX] at h1
  rw [hX]
  omega

theorem clustered_flatten {α : Type} (poi : List α) (d : ℕ) (hd : 1 ≤ d) :
    (clustered poi d).flatten = poi :=
  chunkSlices_flatten _ d poi (le_ceilDiv_mul poi.length d hd)

theorem selectedPermutations_eq_take {cities : List String}
    (h2 : 2 ≤ cities.length) :
    selectedPermutations cities = (permutationsIT cities).take 5 := by
  unfold selectedPermutations
  rw [if_neg (by omega)]
  rw [List.take_eq_take]
  omega

theorem buildOptions_all_error {gp : GeoProvider} {fcs : List ℚ} :
    ∀ (sel : List (List String)) (i : ℕ),
      (∀ r ∈ sel, (travelDetailsFor gp r).error.isSome) →
      buildOptions gp fcs i sel = [] := by
  intro sel
  induction sel with
  | nil => intro i _; rfl
  | cons route rest ih =>
    intro i h
    simp only [buildOptions]
    rw [if_pos (h route (List.mem_cons_self _ _))]
    exact ih (i + 1) fun r hr => h r (List.mem_cons_of_mem _ hr)

/-- `C8`: for an input city list of size exactly 1,
`create_multiple_itineraries` returns exactly one itinerary option,
whose cities equal the input, with `total_distance_km = 0` and
`carbon_emissions_kg = 0`. -/
theorem single_city_trivial_route (gp : GeoProvider) (fp : FlightProvider)
    (ctx : Option FlightCtx) (c : String) :
    ∃ o : ItineraryOption,
      create_multiple_itineraries gp fp [c] ctx = .options [o] ∧
      o.cities = [c] ∧ o.total_distance_km = 0 ∧ o.carbon_emissions_kg = 0 :=
  ⟨buildOption (flightCostsOf fp ctx) 0 [c] ⟨0, 0, none, none⟩,
    rfl, rfl, rfl, rfl⟩

/-- `C10`: every returned itinerary option's
`estimated_drive_time_hours` equals `round(total_distance_km / 60, 1)`
— drive time derived from the (already rounded) distance at a fixed
60 km/h. -/
theorem drive_time_from_distance (gp : GeoProvider) (fp : FlightProvider)
    (ctx : Option FlightCtx) (cities : List String)
    (l : List ItineraryOption)
    (hl : create_multiple_itineraries gp fp cities ctx = .options l) :
    ∀ o ∈ l, o.estimated_drive_time_hours = round1 (o.total_distance_km / 60) := by
  intro o ho
  unfold create_multiple_itineraries at hl
  split at hl
  · exact CreateResult.noConfusion hl
  · injection hl with hl'
    subst hl'
    have ho' : o ∈ buildOptions gp (flightCostsOf fp ctx) 0
        (selectedPermutations cities) := ((sortItineraries_perm _).mem_iff).mp ho
    obtain ⟨k, route, _, _, rfl⟩ := buildOptions_mem _ _ _ ho'
    rfl

/-- `C5` (amended): every produced itinerary set is sorted
non-decreasing in `carbon_emissions_kg` (ties are left in generation
order by the stable sort, not reordered by distance). -/
theorem itineraries_sorted_by_carbon (gp : GeoProvider) (fp : FlightProvider)
    (ctx : Option FlightCtx) (cities : List String)
    (h1 : 1 ≤ cities.length) :
    ∃ l, create_multiple_itineraries gp fp cities ctx = .options l ∧
      l.Sorted (fun a b => a.carbon_emissions_kg ≤ b.carbon_emissions_kg) := by
  refine ⟨sortItineraries (buildOptions gp (flightCostsOf fp ctx) 0
    (selectedPermutations cities)), ?_, sortItineraries_sorted _⟩
  unfold create_multiple_itineraries
  rw [if_neg (by omega)]

/-- `C4`: for a duplicate-free city list of size `n ≥ 2` on which every
selected route resolves, the returned set has exactly
`min(5, n!)` options (hence between 1 and `min(n!, 5)`), each option's
cities are a permutation of the input, and when `n! ≤ 5` no two
returned orderings are equal. -/
theorem permutation_generation_bounds (gp : GeoProvider) (fp : FlightProvider)
    (ctx : Option FlightCtx) (cities : List String)
    (hn : 2 ≤ cities.length) (hnd : cities.Nodup)
    (hres : ∀ r ∈ selectedPermutations cities,
      (travelDetailsFor gp r).error = none) :
    ∃ l, create_multiple_itineraries gp fp cities ctx = .options l ∧
      l.length = min 5 cities.length.factorial ∧
      1 ≤ l.length ∧
      (∀ o ∈ l, o.cities.Perm cities) ∧
      (cities.length.factorial ≤ 5 →
        l.Pairwise (fun a b => a.cities ≠ b.cities)) := by
  have hmap := @buildOptions_map_cities gp (flightCostsOf fp ctx)
    (selectedPermutations cities) 0 hres
  have hperm := sortItineraries_perm
    (buildOptions gp (flightCostsOf fp ctx) 0 (selectedPermutations cities))
  refine ⟨sortItineraries (buildOptions gp (flightCostsOf fp ctx) 0
    (selectedPermutations cities)), ?_, ?_, ?_, ?_, ?_⟩
  · unfold create_multiple_itineraries
    rw [if_neg (by omega)]
  · rw [hperm.length_eq, ← List.length_map _ ItineraryOption.cities, hmap,
      selectedPermutations_length hn]
  · rw [hperm.length_eq, ← List.length_map _ ItineraryOption.cities, hmap,
      selectedPermutations_length hn]
    have := Nat.factorial_pos cities.length
    omega
  · intro o ho
    obtain ⟨k, route, hroute, _, rfl⟩ :=
      buildOptions_mem _ _ _ (hperm.mem_iff.mp ho)
    exact selectedPermutations_mem_perm hroute
  · intro hf
    have hn2 : cities.length = 2 := by
      by_contra hne
      have h3 : 3 ≤ cities.length := by omega
      have := Nat.factorial_le h3
      simp [Nat.factorial] at this
      omega
    obtain ⟨a, b, rfl⟩ := List.length_eq_two.mp hn2
    have hab : a ≠ b := by
      simp only [List.nodup_cons, List.mem_singleton] at hnd
      exact hnd.1
    have hsel : selectedPermutations [a, b] = [[a, b], [b, a]] := rfl
    have hpw : (buildOptions gp (flightCostsOf fp ctx) 0
        (selectedPermutations [a, b])).Pairwise
        (fun o o' => o.cities ≠ o'.cities) := by
      have hpm : ((buildOptions gp (flightCostsOf fp ctx) 0
          (selectedPermutations [a, b])).map ItineraryOption.cities).Pairwise
          (fun x y => x ≠ y) := by
        rw [hmap, hsel]
        refine List.Pairwise.cons ?_
          (List.Pairwise.cons (fun y hy => absurd hy (List.not_mem_nil y))
            List.Pairwise.nil)
        intro y hy
        simp only [List.mem_singleton] at hy
        subst hy
        intro hcontra
        exact hab (List.cons.injEq .. ▸ hcontra).1
      exact List.pairwise_map.mp hpm
    exact (hperm.pairwise_iff fun h => h.symm).mpr hpw

/-- `C2` (amended): if coordinate resolution fails for any city in the
list (size ≥ 2), every candidate ordering fails as a whole and the
returned itinerary set is empty — no route is reported with a
fabricated value for such failures. -/
theorem unresolved_city_excludes_all (gp : GeoProvider) (fp : FlightProvider)
    (ctx : Option FlightCtx) (cities : List String) (c : String)
    (h2 : 2 ≤ cities.length) (hc : c ∈ cities)
    (hnone : gp.coords c = none) :
    create_multiple_itineraries gp fp cities ctx = .options [] := by
  unfold create_multiple_itineraries
  rw [if_neg (by omega)]
  rw [buildOptions_all_error (selectedPermutations cities) 0 ?_]
  · rfl
  · intro r hr
    have hperm := selectedPermutations_mem_perm hr
    have hlen : r.length = cities.length := hperm.length_eq
    unfold travelDetailsFor
    rw [if_neg (by omega)]
    unfold calculate_travel_details
    rw [if_neg (by omega)]
    unfold fetch_distance_between_cities
    rw [if_neg (by omega)]
    rw [resolveCoordinates_none r c (hperm.mem_iff.mpr hc) hnone]
    rfl

/-- `C3` (amended): every returned option's cost breakdown consists of
the single key `flight_cost`, whose value is non-negative; there are no
fuel, accommodation, food or total entries. -/
theorem cost_breakdown_flight_only (gp : GeoProvider) (fp : FlightProvider)
    (ctx : Option FlightCtx) (cities : List String)
    (l : List ItineraryOption)
    (hl : create_multiple_itineraries gp fp cities ctx = .options l) :
    ∀ o ∈ l, ∃ v, o.costs = [("flight_cost", v)] ∧ 0 ≤ v := by
  intro o ho
  unfold create_multiple_itineraries at hl
  split at hl
  · exact CreateResult.noConfusion hl
  · injection hl with hl'
    subst hl'
    obtain ⟨k, route, _, _, rfl⟩ :=
      buildOptions_mem _ _ _ ((sortItineraries_perm _).mem_iff.mp ho)
    exact ⟨flightCostDisplayed (flightCostsOf fp ctx) k, rfl,
      flightCostDisplayed_nonneg _ _ (flightCostsOf_pos fp ctx)⟩

/-- `C6` (amended): each returned option's `flight_cost` is determined
by its generation index (`id − 1`): the price of the offer at that
index when it exists, else the first resolved price, else 0 — not the
minimum offer; with no flight context every option's `flight_cost`
is 0. -/
theorem flight_cost_by_option_id (gp : GeoProvider) (fp : FlightProvider)
    (ctx : Option FlightCtx) (cities : List String)
    (l : List ItineraryOption)
    (hl : create_multiple_itineraries gp fp cities ctx = .options l) :
    (∀ o ∈ l, o.costs =
      [("flight_cost", flightCostDisplayed (flightCostsOf fp ctx) (o.id - 1))]) ∧
    (ctx = none → ∀ o ∈ l, o.costs = [("flight_cost", 0)]) := by
  have key : ∀ o ∈ l, o.costs =
      [("flight_cost", flightCostDisplayed (flightCostsOf fp ctx) (o.id - 1))] := by
    intro o ho
    unfold create_multiple_itineraries at hl
    split at hl
    · exact CreateResult.noConfusion hl
    · injection hl with hl'
      subst hl'
      obtain ⟨k, route, _, _, rfl⟩ :=
        buildOptions_mem _ _ _ ((sortItineraries_perm _).mem_iff.mp ho)
      show [("flight_cost", flightCostDisplayed (flightCostsOf fp ctx) k)] =
        [("flight_cost", flightCostDisplayed (flightCostsOf fp ctx) (k + 1 - 1))]
      rw [Nat.add_sub_cancel]
  refine ⟨key, ?_⟩
  intro hctx o ho
  rw [key o ho, hctx]
  rfl

/-- `C1` (amended): for a resolved route, `carbon_emissions_kg` equals
`round(D_raw × 0.12, 2)` where `D_raw` is the unrounded total distance
`total_distance_meters / 1000`; the returned `total_distance_km` is
`round(D_raw, 2)` (from which the carbon value is in general not
recoverable: double rounding can disagree). -/
theorem carbon_from_raw_distance (gp : GeoProvider) (cities : List String)
    (r : DistanceResult)
    (h2 : 2 ≤ cities.length)
    (hf : fetch_distance_between_cities gp cities = some r) :
    (calculate_travel_details gp cities).carbon_emissions_kg =
      round2 (r.total_distance_meters / 1000 * (12 / 100)) ∧
    (calculate_travel_details gp cities).total_distance_km =
      round2 (r.total_distance_meters / 1000) := by
  unfold calculate_travel_details
  rw [if_neg (by omega), hf]
  exact ⟨rfl, rfl⟩

/-- `C9` (amended): for `n ≥ 2` resolving inputs the returned options'
orderings are exactly the first `min(5, n!)` permutations in
`itertools.permutations` generation order (up to the final
carbon-ascending sort) — no reversed-order or middle-swap variant is
added. -/
theorem selection_is_first_permutations (gp : GeoProvider)
    (fp : FlightProvider) (ctx : Option FlightCtx) (cities : List String)
    (h2 : 2 ≤ cities.length)
    (hres : ∀ r ∈ selectedPermutations cities,
      (travelDetailsFor gp r).error = none) :
    ∃ l, create_multiple_itineraries gp fp cities ctx = .options l ∧
      (l.map ItineraryOption.cities).Perm ((permutationsIT cities).take 5) := by
  refine ⟨sortItineraries (buildOptions gp (flightCostsOf fp ctx) 0
    (selectedPermutations cities)), ?_, ?_⟩
  · unfold create_multiple_itineraries
    rw [if_neg (by omega)]
  · have hmap2 : (buildOptions gp (flightCostsOf fp ctx) 0
        (selectedPermutations cities)).map ItineraryOption.cities =
        (permutationsIT cities).take 5 := by
      rw [buildOptions_map_cities _ 0 hres]
      exact selectedPermutations_eq_take h2
    have hperm := (sortItineraries_perm
      (buildOptions gp (flightCostsOf fp ctx) 0
        (selectedPermutations cities))).map ItineraryOption.cities
    rw [hmap2] at hperm
    exact hperm

/-- `C7` (amended): of the four spec-modelled scheduling strategies,
Balanced, Clustered and Randomized (for any multiset-preserving
shuffle) return day plans whose flattened POI multiset equals the
input multiset exactly, for every `m ≥ 0` and every `d ≥ 1`
(including `m < d` and `m = 0`); the Priority-weighted strategy does
not share this invariant. -/
theorem scheduling_preserves_multiset (poi : List String) (d : ℕ)
    (shuffle : List String → List String)
    (hd : 1 ≤ d) (hs : (shuffle poi).Perm poi) :
    (balanced poi d).flatten.Perm poi ∧
    (clustered poi d).flatten.Perm poi ∧
    (randomized shuffle poi d).flatten.Perm poi := by
  refine ⟨?_, ?_, ?_⟩
  · rw [balanced_flatten poi d hd]
  · rw [clustered_flatten poi d hd]
  · unfold randomized
    rw [balanced_flatten (shuffle poi) d hd]
    exact hs

/-- `C5` counterexample: two returned options with equal
`carbon_emissions_kg` (1.2) whose distances appear in descending order
(10.01 before 10.0): the stable sort keeps generation order on ties and
does not break them by ascending `total_distance_km`. -/
theorem sort_tie_not_by_distance_cx :
    ∃ o1 o2, create_multiple_itineraries gpTie fpEmpty ["A", "B"] none =
      .options [o1, o2] ∧
      o1.carbon_emissions_kg = o2.carbon_emissions_kg ∧
      o2.total_distance_km < o1.total_distance_km := by
  have htd1 : travelDetailsFor gpTie ["A", "B"] =
      ⟨1001 / 100, 6 / 5, none, some ["A", "B"]⟩ := by
    simp [travelDetailsFor, calculate_travel_details,
      fetch_distance_between_cities, resolveCoordinates, gpTie,
      sumLegs, legContribution]
    norm_num [round2, rhe]
  have htd2 : travelDetailsFor gpTie ["B", "A"] =
      ⟨10, 6 / 5, none, some ["B", "A"]⟩ := by
    simp [travelDetailsFor, calculate_travel_details,
      fetch_distance_between_cities, resolveCoordinates, gpTie,
      sumLegs, legContribution]
    norm_num [round2, rhe]
  have hbuild : buildOptions gpTie [] 0 (selectedPermutations ["A", "B"]) =
      [buildOption [] 0 ["A", "B"] ⟨1001 / 100, 6 / 5, none, some ["A", "B"]⟩,
        buildOption [] 1 ["B", "A"] ⟨10, 6 / 5, none, some ["B", "A"]⟩] := by
    show buildOptions gpTie [] 0 [["A", "B"], ["B", "A"]] = _
    simp only [buildOptions, htd1, htd2]
    rfl
  refine ⟨buildOption [] 0 ["A", "B"] ⟨1001 / 100, 6 / 5, none, some ["A", "B"]⟩,
    buildOption [] 1 ["B", "A"] ⟨10, 6 / 5, none, some ["B", "A"]⟩,
    ?_, rfl, by norm_num [buildOption]⟩
  show CreateResult.options (sortItineraries
    (buildOptions gpTie (flightCostsOf fpEmpty none) 0
      (selectedPermutations ["A", "B"]))) = _
  rw [show flightCostsOf fpEmpty none = [] from rfl, hbuild]
  unfold sortItineraries
  norm_num [List.insertionSort, List.orderedInsert, carbonLE, buildOption]

/-- `C6` counterexample: with two resolved offers priced 300 then 100,
the first returned option carries `flight_cost = 300`, not the minimum
(100): flight costs are index-aligned with options, not minimized. -/
theorem flight_cost_not_minimum_cx :
    flightCostsOf fpTwoOffers (some ctxFrance) = [300, 100] ∧
    (100 : ℚ) < 300 ∧
    ∃ o1 o2, create_multiple_itineraries (gpConst 10000) fpTwoOffers
        ["A", "B"] (some ctxFrance) = .options [o1, o2] ∧
      o1.costs = [("flight_cost", 300)] ∧
      o2.costs = [("flight_cost", 100)] := by
  have hfc : flightCostsOf fpTwoOffers (some ctxFrance) = [300, 100] := by
    simp [flightCostsOf, fpTwoOffers, ctxFrance, toLowerPy,
      destination_airports, extractFlightCosts]
  have htd : ∀ r : List String, r.length = 2 →
      travelDetailsFor (gpConst 10000) r = ⟨10, 6 / 5, none, some r⟩ := by
    intro r hr
    obtain ⟨a, b, rfl⟩ := List.length_eq_two.mp hr
    simp [travelDetailsFor, calculate_travel_details,
      fetch_distance_between_cities, resolveCoordinates, gpConst,
      sumLegs, legContribution]
    norm_num [round2, rhe]
  have hbuild : buildOptions (gpConst 10000) [300, 100]
      0 (selectedPermutations ["A", "B"]) =
      [buildOption [300, 100] 0 ["A", "B"] ⟨10, 6 / 5, none, some ["A", "B"]⟩,
        buildOption [300, 100] 1 ["B", "A"]
          ⟨10, 6 / 5, none, some ["B", "A"]⟩] := by
    show buildOptions (gpConst 10000) [300, 100] 0 [["A", "B"], ["B", "A"]] = _
    simp only [buildOptions, htd ["A", "B"] rfl, htd ["B", "A"] rfl]
    rfl
  refine ⟨hfc, by norm_num,
    buildOption [300, 100] 0 ["A", "B"] ⟨10, 6 / 5, none, some ["A", "B"]⟩,
    buildOption [300, 100] 1 ["B", "A"] ⟨10, 6 / 5, none, some ["B", "A"]⟩,
    ?_, ?_, ?_⟩
  · show CreateResult.options (sortItineraries
      (buildOptions (gpConst 10000) (flightCostsOf fpTwoOffers (some ctxFrance))
        0 (selectedPermutations ["A", "B"]))) = _
    rw [hfc, hbuild]
    unfold sortItineraries
    norm_num [List.insertionSort, List.orderedInsert, carbonLE, buildOption]
  · show [("flight_cost", flightCostDisplayed [300, 100] 0)] = _
    norm_num [flightCostDisplayed, round2, rhe]
  · show [("flight_cost", flightCostDisplayed [300, 100] 1)] = _
    norm_num [flightCostDisplayed, round2, rhe]

/-- `C3` counterexample: a returned option whose cost breakdown has no
`fuel_cost`, `accommodation_cost`, `food_cost` or `total_cost` entry at
all — the breakdown holds only `flight_cost`. -/
theorem cost_breakdown_missing_fields_cx :
    ∃ o, create_multiple_itineraries (gpConst 1000) fpEmpty ["Paris"] none =
      .options [o] ∧
      (∀ v : ℚ, ("fuel_cost", v) ∉ o.costs) ∧
      (∀ v : ℚ, ("accommodation_cost", v) ∉ o.costs) ∧
      (∀ v : ℚ, ("food_cost", v) ∉ o.costs) ∧
      (∀ v : ℚ, ("total_cost", v) ∉ o.costs) := by
  refine ⟨buildOption [] 0 ["Paris"] ⟨0, 0, none, none⟩, rfl, ?_, ?_, ?_, ?_⟩ <;>
    intro v hv <;> simp [buildOption, flightCostDisplayed] at hv

/-- `C7` counterexample: the spec-modelled Priority-weighted strategy
drops POIs when the day count is smaller than the number of priority
POIs — 3 POIs over 1 day schedule only the first POI. -/
theorem priority_weighted_loses_pois_cx :
    (priorityWeighted ["a", "b", "c"] 1).flatten = ["a"] ∧
    ¬ (priorityWeighted ["a", "b", "c"] 1).flatten.Perm ["a", "b", "c"] := by
  refine ⟨rfl, fun h => ?_⟩
  have h1 : (priorityWeighted ["a", "b", "c"] 1).flatten.length = 3 := h.length_eq
  rw [show (priorityWeighted ["a", "b", "c"] 1).flatten = ["a"] from rfl] at h1
  simp at h1

/-- `C9` counterexample: for four cities the code's selection is the
plain first-5 truncation of `itertools.permutations`; it is not the
spec's first-(cap−2) + reversed + middle-swap selection, and in
particular the fully-reversed ordering is never selected. -/
theorem diverse_selection_not_implemented_cx :
    ["D", "C", "B", "A"] ∈ specDiverseSelection 5 ["A", "B", "C", "D"] ∧
    ["D", "C", "B", "A"] ∉ selectedPermutations ["A", "B", "C", "D"] ∧
    selectedPermutations ["A", "B", "C", "D"] ≠
      specDiverseSelection 5 ["A", "B", "C", "D"] := by
  refine ⟨?_, ?_, ?_⟩ <;> decide

/-- `C1` counterexample: at a resolved total of 4875 meters the code's
carbon value (0.58, rounded once from the raw distance) differs from
`round(total_distance_km × 0.12, 2)` computed from the returned
2-decimal `total_distance_km` (4.88 ⇒ 0.59): double rounding does not
agree with the code's single rounding. -/
theorem carbon_double_rounding_cx :
    calculate_travel_details (gpConst 4875) ["A", "B"] =
      ⟨488 / 100, 58 / 100, none, some ["A", "B"]⟩ ∧
    (calculate_travel_details (gpConst 4875) ["A", "B"]).carbon_emissions_kg ≠
      round2 ((calculate_travel_details (gpConst 4875)
        ["A", "B"]).total_distance_km * (12 / 100)) := by
  have hval : calculate_travel_details (gpConst 4875) ["A", "B"] =
      ⟨488 / 100, 58 / 100, none, some ["A", "B"]⟩ := by
    norm_num [calculate_travel_details, fetch_distance_between_cities,
      resolveCoordinates, gpConst, sumLegs, legContribution, round2, rhe]
  refine ⟨hval, ?_⟩
  rw [hval]
  norm_num [round2, rhe]

/-- `C2` counterexample: on a route whose second leg fails with an HTTP
error (`gpLegFail.leg (1,1) (0,0) = httpError`), the route is not
excluded: it is returned with a fabricated zero total distance; the
reverse route is returned with the partial total of its one successful
leg. -/
theorem failed_leg_partial_route_cx :
    gpLegFail.leg (1, 1) (0, 0) = .httpError ∧
    ∃ o1 o2, create_multiple_itineraries gpLegFail fpEmpty ["A", "B"] none =
      .options [o1, o2] ∧
      o1.cities = ["B", "A"] ∧ o1.total_distance_km = 0 ∧
      o1.carbon_emissions_kg = 0 ∧
      o2.cities = ["A", "B"] ∧ o2.total_distance_km = 5 := by
  have htd1 : travelDetailsFor gpLegFail ["A", "B"] =
      ⟨5, 3 / 5, none, some ["A", "B"]⟩ := by
    simp [travelDetailsFor, calculate_travel_details,
      fetch_distance_between_cities, resolveCoordinates, gpLegFail,
      sumLegs, legContribution]
    norm_num [round2, rhe]
  have htd2 : travelDetailsFor gpLegFail ["B", "A"] =
      ⟨0, 0, none, some ["B", "A"]⟩ := by
    simp [travelDetailsFor, calculate_travel_details,
      fetch_distance_between_cities, resolveCoordinates, gpLegFail,
      sumLegs, legContribution]
    norm_num [round2, rhe]
  have hbuild : buildOptions gpLegFail [] 0 (selectedPermutations ["A", "B"]) =
      [buildOption [] 0 ["A", "B"] ⟨5, 3 / 5, none, some ["A", "B"]⟩,
        buildOption [] 1 ["B", "A"] ⟨0, 0, none, some ["B", "A"]⟩] := by
    show buildOptions gpLegFail [] 0 [["A", "B"], ["B", "A"]] = _
    simp only [buildOptions, htd1, htd2]
    rfl
  refine ⟨rfl, buildOption [] 1 ["B", "A"] ⟨0, 0, none, some ["B", "A"]⟩,
    buildOption [] 0 ["A", "B"] ⟨5, 3 / 5, none, some ["A", "B"]⟩,
    ?_, rfl, rfl, rfl, rfl, rfl⟩
  show CreateResult.options (sortItineraries
    (buildOptions gpLegFail (flightCostsOf fpEmpty none) 0
      (selectedPermutations ["A", "B"]))) = _
  rw [show flightCostsOf fpEmpty none = [] from rfl, hbuild]
  unfold sortItineraries
  norm_num [List.insertionSort, List.orderedInsert, carbonLE, buildOption]

/-- Witness for `carbon_from_raw_distance` at the spec's concrete case:
three cities with legs summing to 750.5 km give carbon 90.06. -/
theorem carbon_from_raw_distance_wit :
    (2 ≤ (["Paris", "Lyon", "Nice"] : List String).length) ∧
    fetch_distance_between_cities (gpConst 375250) ["Paris", "Lyon", "Nice"] =
      some ⟨375250 + (375250 + 0), 0 + (0 + 0), ["Paris", "Lyon", "Nice"]⟩ ∧
    (calculate_travel_details (gpConst 375250)
      ["Paris", "Lyon", "Nice"]).carbon_emissions_kg = 9006 / 100 := by
  have h := carbon_from_raw_distance (gpConst 375250) ["Paris", "Lyon", "Nice"]
    ⟨375250 + (375250 + 0), 0 + (0 + 0), ["Paris", "Lyon", "Nice"]⟩
    (by decide) rfl
  refine ⟨by decide, rfl, ?_⟩
  rw [h.1]
  norm_num [round2, rhe]

/-- Witness for `unresolved_city_excludes_all`: with city "B"
unresolvable, the two-city request returns an empty option list. -/
theorem unresolved_city_excludes_all_wit :
    (2 ≤ (["A", "B"] : List String).length) ∧
    ("B" ∈ (["A", "B"] : List String)) ∧
    gpNoCoords.coords "B" = none ∧
    create_multiple_itineraries gpNoCoords fpEmpty ["A", "B"] none =
      .options [] :=
  ⟨by decide, by decide, rfl,
    unresolved_city_excludes_all gpNoCoords fpEmpty none ["A", "B"] "B"
      (by decide) (by decide) rfl⟩

/-- Witness for `cost_breakdown_flight_only` on a concrete run. -/
theorem cost_breakdown_flight_only_wit :
    create_multiple_itineraries (gpConst 1000) fpEmpty ["A"] none =
      .options [buildOption [] 0 ["A"] ⟨0, 0, none, none⟩] ∧
    ∀ o ∈ [buildOption [] 0 ["A"] ⟨0, 0, none, none⟩],
      ∃ v, o.costs = [("flight_cost", v)] ∧ 0 ≤ v :=
  ⟨rfl, cost_breakdown_flight_only (gpConst 1000) fpEmpty none ["A"] _ rfl⟩

/-- Witness for `permutation_generation_bounds` on two resolvable
cities. -/
theorem permutation_generation_bounds_wit :
    (2 ≤ (["A", "B"] : List String).length) ∧
    (["A", "B"] : List String).Nodup ∧
    (∀ r ∈ selectedPermutations ["A", "B"],
      (travelDetailsFor (gpConst 1000) r).error = none) ∧
    (∃ l, create_multiple_itineraries (gpConst 1000) fpEmpty ["A", "B"] none =
        .options l ∧
      l.length = min 5 (["A", "B"] : List String).length.factorial ∧
      1 ≤ l.length ∧
      (∀ o ∈ l, o.cities.Perm ["A", "B"]) ∧
      ((["A", "B"] : List String).length.factorial ≤ 5 →
        l.Pairwise (fun a b => a.cities ≠ b.cities))) :=
  ⟨by decide, by decide, by decide,
    permutation_generation_bounds (gpConst 1000) fpEmpty none ["A", "B"]
      (by decide) (by decide) (by decide)⟩

/-- Witness for `itineraries_sorted_by_carbon` on a concrete run. -/
theorem itineraries_sorted_by_carbon_wit :
    (1 ≤ (["A"] : List String).length) ∧
    (∃ l, create_multiple_itineraries (gpConst 1000) fpEmpty ["A"] none =
        .options l ∧
      l.Sorted (fun a b => a.carbon_emissions_kg ≤ b.carbon_emissions_kg)) :=
  ⟨by decide,
    itineraries_sorted_by_carbon (gpConst 1000) fpEmpty none ["A"] (by decide)⟩

/-- Witness for `flight_cost_by_option_id` on a concrete run with a
full flight context. -/
theorem flight_cost_by_option_id_wit :
    create_multiple_itineraries (gpConst 1000) fpTwoOffers ["A"]
      (some ctxFrance) =
      .options [buildOption (flightCostsOf fpTwoOffers (some ctxFrance)) 0
        ["A"] ⟨0, 0, none, none⟩] ∧
    ((∀ o ∈ [buildOption (flightCostsOf fpTwoOffers (some ctxFrance)) 0
        ["A"] ⟨0, 0, none, none⟩],
      o.costs = [("flight_cost",
        flightCostDisplayed (flightCostsOf fpTwoOffers (some ctxFrance))
          (o.id - 1))]) ∧
    (some ctxFrance = none →
      ∀ o ∈ [buildOption (flightCostsOf fpTwoOffers (some ctxFrance)) 0
        ["A"] ⟨0, 0, none, none⟩],
        o.costs = [("flight_cost", 0)])) :=
  ⟨rfl, flight_cost_by_option_id (gpConst 1000) fpTwoOffers (some ctxFrance)
    ["A"] _ rfl⟩

/-- Witness for `scheduling_preserves_multiset` at 3 POIs over 2 days
with the identity shuffle. -/
theorem scheduling_preserves_multiset_wit :
    (1 ≤ 2) ∧
    (id (["x", "y", "z"] : List String)).Perm ["x", "y", "z"] ∧
    ((balanced (["x", "y", "z"] : List String) 2).flatten.Perm
        ["x", "y", "z"] ∧
      (clustered (["x", "y", "z"] : List String) 2).flatten.Perm
        ["x", "y", "z"] ∧
      (randomized id (["x", "y", "z"] : List String) 2).flatten.Perm
        ["x", "y", "z"]) :=
  ⟨by decide, List.Perm.refl _,
    scheduling_preserves_multiset ["x", "y", "z"] 2 id (by decide)
      (List.Perm.refl _)⟩

/-- Witness for `selection_is_first_permutations` on two resolvable
cities. -/
theorem selection_is_first_permutations_wit :
    (2 ≤ (["A", "B"] : List String).length) ∧
    (∀ r ∈ selectedPermutations ["A", "B"],
      (travelDetailsFor (gpConst 1000) r).error = none) ∧
    (∃ l, create_multiple_itineraries (gpConst 1000) fpEmpty ["A", "B"] none =
        .options l ∧
      (l.map ItineraryOption.cities).Perm
        ((permutationsIT ["A", "B"]).take 5)) :=
  ⟨by decide, by decide,
    selection_is_first_permutations (gpConst 1000) fpEmpty none ["A", "B"]
      (by decide) (by decide)⟩

/-- Witness for `drive_time_from_distance` on a concrete run. -/
theorem drive_time_from_distance_wit :
    create_multiple_itineraries (gpConst 1000) fpEmpty ["A"] none =
      .options [buildOption [] 0 ["A"] ⟨0, 0, none, none⟩] ∧
    ∀ o ∈ [buildOption [] 0 ["A"] ⟨0, 0, none, none⟩],
      o.estimated_drive_time_hours = round1 (o.total_distance_km / 60) :=
  ⟨rfl, drive_time_from_distance (gpConst 1000) fpEmpty none ["A"] _ rfl⟩
